import Mathlib

/-!
Verification of the cross-section library generation decision and update
protocol of the ARMI lattice physics interface, together with two settings
validators from `armi/settings/fwSettings/globalSettings.py`.

The production module `latticePhysicsInterface.py` is not part of the visible
source excerpt (only its unit tests are), so the Decision Engine and the
Update Orchestrator are modelled from the specification, faithful to its
words.  The settings validators (`runType` options, `_mutuallyExclusiveCyclesInputs`)
are embedded from `globalSettings.py` directly.
-/

namespace Armi

/-- A cross-section library: a mapping from cross-section identifier
(string, e.g. "AA") to its data record (opaque payload, not reinterpreted
by the core).  `None` at the call sites is represented by `Option`. -/
structure CrossSectionLibrary where
  entries : List (String × String)
deriving DecidableEq

/-- The identifier keys currently present in a library. -/
def CrossSectionLibrary.keys (L : CrossSectionLibrary) : List String :=
  L.entries.map Prod.fst

/-- Sorted rendering order for identifier sets: insertion sort on the
string order, so that log output is deterministic. -/
def sortIds (ids : List String) : List String :=
  List.insertionSort (fun a b => a ≤ b) ids

/-- Render a list of identifiers for a log line. -/
def renderIds (ids : List String) : String :=
  "[" ++ String.intercalate ", " ids ++ "]"

/-- Modelled from the spec: the Library-Regeneration Decision Engine
`shouldRegenerate` (`_newLibraryShouldBeCreated` in
`latticePhysicsInterface.py`, absent from the excerpt).  Given the current
cycle number, the set of required identifiers, the existing library (or
none) and the generation-requested flag, it decides whether regeneration is
required.  The returned list holds the log lines emitted by the decision,
which are part of the observable contract. -/
def shouldRegenerate (cycle : Nat) (requiredIdentifiers : List String)
    (existingLibrary : Option CrossSectionLibrary)
    (generationRequested : Bool) : Bool × List String :=
  match existingLibrary with
  | none =>
    if generationRequested then
      (true,
        ["Cross sections will be generated on cycle " ++ toString cycle
          ++ " for the following XS IDs: "
          ++ renderIds (sortIds requiredIdentifiers) ++ "."])
    else
      (false,
        ["Cross sections will not be generated on cycle " ++ toString cycle ++ "."])
  | some lib =>
    let missing := requiredIdentifiers.filter (fun r => !(decide (r ∈ lib.keys)))
    if missing.isEmpty then
      (false, ["The generation of XS will be skipped."])
    else if generationRequested then
      (true,
        ["These will be generated on cycle " ++ toString cycle
          ++ " for missing XS IDs: " ++ renderIds (sortIds missing) ++ "."])
    else
      (true,
        ["The generation of XS is not enabled, but will be run to generate these missing cross sections."])

/-- The run-type enumeration of the `runType` configuration option,
controlling whether library state is reset at the start of snapshot-style
runs. -/
inductive RunType where
  | Standard
  | Equilibrium
  | Snapshots
deriving DecidableEq

/-- The library slot on the reactor-core object.  In the source it is a
plain attribute, so besides a library or `None` it can transiently hold a
sentinel non-library value (the tests store the string "Nonsense"). -/
inductive LibSlot where
  | noLib
  | lib (L : CrossSectionLibrary)
  | sentinel (s : String)
deriving DecidableEq

/-- The configuration read by the Update Orchestrator: the run-type
enumeration and the `genXS` generation-requested flag (a free-form string;
non-empty means generation explicitly requested). -/
structure LatticeConfig where
  runType : RunType
  genXS : String

/-- The generation-requested flag derived from configuration: `genXS`
non-empty means generation is explicitly requested. -/
def generationRequested (cfg : LatticeConfig) : Bool :=
  cfg.genXS != ""

/-- State owned by the orchestrator and the reactor core: the shared
library slot and the per-identifier burnup bookkeeping map
(`_oldXsIdsAndBurnup`): cross-section identifier to the burnup value at
which that identifier's data was last generated. -/
structure OrchestratorState where
  lib : LibSlot
  oldXsIdsAndBurnup : List (String × Rat)
deriving DecidableEq

/-- Modelled from the spec: `OldXsIdsAndBurnup` starts empty at interface
construction. -/
def initialOldXsIdsAndBurnup : List (String × Rat) := []

/-- Overwrite (or add) a single entry of the bookkeeping map. -/
def setEntry (m : List (String × Rat)) (k : String) (v : Rat) :
    List (String × Rat) :=
  match m with
  | [] => [(k, v)]
  | (k₀, v₀) :: rest =>
    if k₀ = k then (k, v) :: rest else (k₀, v₀) :: setEntry rest k v

/-- Record the generation burnup of every regenerated identifier,
overwriting any prior entry for that identifier. -/
def updateEntries (m : List (String × Rat)) :
    List (String × Rat) → List (String × Rat)
  | [] => m
  | (k, v) :: rest => updateEntries (setEntry m k v) rest

/-- Modelled from the spec: step 1 of `interactCoupled` — if the configured
run-type equals `Snapshots` and the simulation time-node equals 0, reset
the externally-owned library reference to `None` before proceeding. -/
def snapshotReset (cfg : LatticeConfig) (timeNode : Nat)
    (st : OrchestratorState) : OrchestratorState :=
  if cfg.runType = RunType.Snapshots ∧ timeNode = 0 then
    { st with lib := LibSlot.noLib }
  else st

/-- Modelled from the spec: the Update Orchestrator operation
`interactCoupled` of `latticePhysicsInterface.py` (absent from the
excerpt), invoked once per coupled-physics pass.  After the snapshot reset,
a non-zero time-node returns immediately without consulting the Decision
Engine; at time-node 0 the Decision Engine (`decideRegen`, injectable as in
the tests) is consulted with the current cycle, the required identifiers,
the library slot and the generation-requested flag; a true verdict invokes
the external calculation (`regenerate`), replaces the library wholesale and
records the generation burnups. -/
def interactCoupled (cfg : LatticeConfig) (timeNode : Nat) (cycle : Nat)
    (requiredIds : List String)
    (decideRegen : Nat → List String → LibSlot → Bool → Bool × List String)
    (regenerate : List String → CrossSectionLibrary × List (String × Rat))
    (st : OrchestratorState) : OrchestratorState :=
  let st₁ := snapshotReset cfg timeNode st
  if timeNode ≠ 0 then st₁
  else
    let verdict :=
      (decideRegen cycle requiredIds st₁.lib (generationRequested cfg)).1
    if verdict then
      let res := regenerate requiredIds
      { lib := LibSlot.lib res.1,
        oldXsIdsAndBurnup := updateEntries st₁.oldXsIdsAndBurnup res.2 }
    else st₁

/-- The enumerated option set of the `runType` setting, from
`globalSettings.py` (`CONF_RUN_TYPE`). -/
def runTypeOptions : List String := ["Standard", "Equilibrium", "Snapshots"]

/-- The default value of the `runType` setting, from `globalSettings.py`. -/
def runTypeDefault : String := "Standard"

/-- Errors raised by settings validation. -/
inductive SettingsError where
  | configurationError (msg : String)
  | invalid (msg : String)
deriving DecidableEq

/-- Modelled from the spec: validation of an option-constrained setting
value at construction/load (the `Setting` class with an `options` list is
outside the excerpt).  A value outside the enumerated option set is a
`ConfigurationError`; an enumerated value is accepted. -/
def validateOptionValue (options : List String) (value : String) :
    Except SettingsError String :=
  if value ∈ options then Except.ok value
  else
    Except.error
      (SettingsError.configurationError
        ("Option " ++ value ++ " is not in the enumerated option set."))

/-- Validation of the `runType` setting against its option set. -/
def validateRunType (value : String) : Except SettingsError String :=
  validateOptionValue runTypeOptions value

/-- The base error message of `_mutuallyExclusiveCyclesInputs`
(inner quotation marks elided). -/
def cyclesBaseErrMsg : String :=
  "Must have exactly one of either cumulative days, step days, or cycle length + burn steps in each cycle definition."

/-- Embedded from `globalSettings.py`, `_mutuallyExclusiveCyclesInputs`:
a `cycles` entry (represented by its present keys, plus the value of its
`name` key when present) is accepted only when the count of present
timing-input groups — `cumulative days` present, `step days` present,
`cycle length` or `burn steps` present — is exactly 1; otherwise the
validator raises `Invalid`. -/
def mutuallyExclusiveCyclesInputs (cycleKeys : List String)
    (nameVal : String) : Except SettingsError (List String) :=
  if ((if "cumulative days" ∈ cycleKeys then 1 else 0)
      + (if "step days" ∈ cycleKeys then 1 else 0)
      + (if "cycle length" ∈ cycleKeys ∨ "burn steps" ∈ cycleKeys then 1 else 0)
        : Nat) ≠ 1 then
    Except.error
      (SettingsError.invalid
        (if "name" ∈ cycleKeys then
          cyclesBaseErrMsg ++ " Check cycle " ++ nameVal ++ "."
        else cyclesBaseErrMsg))
  else Except.ok cycleKeys

/-- The specification's reading of the `cycles` mutual-exclusion rule:
exactly one of the three timing-input groups is present — `cumulative
days`, `step days`, or (`cycle length` or `burn steps`). -/
def exactlyOneTimingGroup (ks : List String) : Prop :=
  ("cumulative days" ∈ ks ∧ "step days" ∉ ks
      ∧ "cycle length" ∉ ks ∧ "burn steps" ∉ ks)
    ∨ ("cumulative days" ∉ ks ∧ "step days" ∈ ks
      ∧ "cycle length" ∉ ks ∧ "burn steps" ∉ ks)
    ∨ ("cumulative days" ∉ ks ∧ "step days" ∉ ks
      ∧ ("cycle length" ∈ ks ∨ "burn steps" ∈ ks))

/-- Claim C1: for every cycle, required-identifier set and present library
whose key set covers the required identifiers, `shouldRegenerate` returns
false regardless of the generation-requested flag, and logs the line
"The generation of XS will be skipped." -/
theorem shouldRegenerate_covering_library_skips (c : Nat) (R : List String)
    (L : CrossSectionLibrary) (g : Bool) (h : ∀ r ∈ R, r ∈ L.keys) :
    shouldRegenerate c R (some L) g =
      (false, ["The generation of XS will be skipped."]) := by
  have hm : R.filter (fun r => !(decide (r ∈ L.keys))) = [] := by
    apply List.filter_eq_nil_iff.mpr
    intro a ha
    simp [h a ha]
  simp [shouldRegenerate, hm]

/-- Witness for claim C1 at cycle 1, required set ["AA"], library with key
"AA", generation requested. -/
theorem shouldRegenerate_covering_library_skips_witness :
    (∀ r ∈ ["AA"], r ∈ (CrossSectionLibrary.mk [("AA", "xsdata")]).keys)
    ∧ shouldRegenerate 1 ["AA"]
        (some (CrossSectionLibrary.mk [("AA", "xsdata")])) true =
      (false, ["The generation of XS will be skipped."]) :=
  ⟨by decide,
    shouldRegenerate_covering_library_skips 1 ["AA"]
      (CrossSectionLibrary.mk [("AA", "xsdata")]) true (by decide)⟩

/-- Claim C2: for every cycle and present library that does not cover the
required identifiers, with the generation-requested flag false,
`shouldRegenerate` returns true and its log output contains "is not
enabled, but will be run to generate these missing cross sections." -/
theorem shouldRegenerate_missing_not_requested_forces (c : Nat)
    (R : List String) (L : CrossSectionLibrary) (h : ∃ r ∈ R, r ∉ L.keys) :
    (shouldRegenerate c R (some L) false).1 = true
    ∧ "The generation of XS is not enabled, but will be run to generate these missing cross sections."
        ∈ (shouldRegenerate c R (some L) false).2 := by
  obtain ⟨r, hrR, hrk⟩ := h
  have hm : (R.filter (fun r => !(decide (r ∈ L.keys)))).isEmpty = false := by
    have hmem : r ∈ R.filter (fun r => !(decide (r ∈ L.keys))) :=
      List.mem_filter.mpr ⟨hrR, by simp [hrk]⟩
    cases hfil : R.filter (fun r => !(decide (r ∈ L.keys))) with
    | nil => rw [hfil] at hmem; cases hmem
    | cons a as => simp [List.isEmpty]
  constructor
  · simp [shouldRegenerate, hm]
  · simp [shouldRegenerate, hm]

/-- Witness for claim C2 at cycle 1, required set ["BB"] against a library
holding only "AA", generation not requested. -/
theorem shouldRegenerate_missing_not_requested_forces_witness :
    (∃ r ∈ ["BB"], r ∉ (CrossSectionLibrary.mk [("AA", "xsdata")]).keys)
    ∧ ((shouldRegenerate 1 ["BB"]
          (some (CrossSectionLibrary.mk [("AA", "xsdata")])) false).1 = true
      ∧ "The generation of XS is not enabled, but will be run to generate these missing cross sections."
          ∈ (shouldRegenerate 1 ["BB"]
              (some (CrossSectionLibrary.mk [("AA", "xsdata")])) false).2) :=
  ⟨by decide,
    shouldRegenerate_missing_not_requested_forces 1 ["BB"]
      (CrossSectionLibrary.mk [("AA", "xsdata")]) (by decide)⟩

/-- Claim C3: for every cycle and required-identifier set, with no existing
library and the generation-requested flag false, `shouldRegenerate` returns
false and logs "Cross sections will not be generated on cycle {cycle}." -/
theorem shouldRegenerate_no_library_not_requested (c : Nat)
    (R : List String) :
    shouldRegenerate c R none false =
      (false,
        ["Cross sections will not be generated on cycle " ++ toString c ++ "."]) :=
  rfl

/-- Claim C4: for every cycle and required-identifier set, with no existing
library and the generation-requested flag true, `shouldRegenerate` returns
true and logs "Cross sections will be generated on cycle {cycle} for the
following XS IDs: {sortedRequiredIdentifiers}.", where the rendered
identifier list is sorted and a permutation of the required identifiers. -/
theorem shouldRegenerate_no_library_requested_sorted (c : Nat)
    (R : List String) :
    shouldRegenerate c R none true =
      (true,
        ["Cross sections will be generated on cycle " ++ toString c
          ++ " for the following XS IDs: " ++ renderIds (sortIds R) ++ "."])
    ∧ List.Sorted (fun a b : String => a ≤ b) (sortIds R)
    ∧ List.Perm (sortIds R) R := by
  refine ⟨rfl, ?_, ?_⟩
  · exact List.sorted_insertionSort _ R
  · exact List.perm_insertionSort _ R

/-- Claim C5: for every cycle and present library that does not cover the
required identifiers, with the generation-requested flag true,
`shouldRegenerate` returns true and its log output contains "These will be
generated on cycle " followed by the cycle number. -/
theorem shouldRegenerate_missing_requested_generates (c : Nat)
    (R : List String) (L : CrossSectionLibrary) (h : ∃ r ∈ R, r ∉ L.keys) :
    (shouldRegenerate c R (some L) true).1 = true
    ∧ ∃ rest : String,
        ("These will be generated on cycle " ++ toString c ++ rest)
          ∈ (shouldRegenerate c R (some L) true).2 := by
  obtain ⟨r, hrR, hrk⟩ := h
  have hm : (R.filter (fun r => !(decide (r ∈ L.keys)))).isEmpty = false := by
    have hmem : r ∈ R.filter (fun r => !(decide (r ∈ L.keys))) :=
      List.mem_filter.mpr ⟨hrR, by simp [hrk]⟩
    cases hfil : R.filter (fun r => !(decide (r ∈ L.keys))) with
    | nil => rw [hfil] at hmem; cases hmem
    | cons a as => simp [List.isEmpty]
  refine ⟨by simp [shouldRegenerate, hm], ?_⟩
  refine ⟨" for missing XS IDs: "
    ++ renderIds (sortIds (R.filter (fun r => !(decide (r ∈ L.keys))))) ++ ".", ?_⟩
  simp [shouldRegenerate, hm, String.append_assoc]

/-- Witness for claim C5 at cycle 1, required set ["BB"] against a library
holding only "AA", generation requested. -/
theorem shouldRegenerate_missing_requested_generates_witness :
    (∃ r ∈ ["BB"], r ∉ (CrossSectionLibrary.mk [("AA", "xsdata")]).keys)
    ∧ ((shouldRegenerate 1 ["BB"]
          (some (CrossSectionLibrary.mk [("AA", "xsdata")])) true).1 = true
      ∧ ∃ rest : String,
          ("These will be generated on cycle " ++ toString 1 ++ rest)
            ∈ (shouldRegenerate 1 ["BB"]
                (some (CrossSectionLibrary.mk [("AA", "xsdata")])) true).2) :=
  ⟨by decide,
    shouldRegenerate_missing_requested_generates 1 ["BB"]
      (CrossSectionLibrary.mk [("AA", "xsdata")]) (by decide)⟩

/-- Claim C6: for every prior value of the library slot (sentinel values
included) and every decision-engine input, `interactCoupled` at a non-zero
time-node leaves the library reference unchanged. -/
theorem interactCoupled_nonzero_timeNode_preserves_lib (cfg : LatticeConfig)
    (timeNode cycle : Nat) (requiredIds : List String)
    (decideRegen : Nat → List String → LibSlot → Bool → Bool × List String)
    (regenerate : List String → CrossSectionLibrary × List (String × Rat))
    (st : OrchestratorState) (h : timeNode ≠ 0) :
    (interactCoupled cfg timeNode cycle requiredIds decideRegen regenerate
      st).lib = st.lib := by
  have hsr : snapshotReset cfg timeNode st = st := by
    simp [snapshotReset, h]
  simp [interactCoupled, hsr, h]

/-- Witness for claim C6 at time-node 1 with a sentinel library value and a
decision engine that always answers true. -/
theorem interactCoupled_nonzero_timeNode_preserves_lib_witness :
    (1 : Nat) ≠ 0
    ∧ (interactCoupled ⟨RunType.Standard, "Neutron"⟩ 1 0 ["AA"]
        (fun _ _ _ _ => (true, []))
        (fun _ => (CrossSectionLibrary.mk [], []))
        ⟨LibSlot.sentinel "Nonsense", []⟩).lib
      = (⟨LibSlot.sentinel "Nonsense", []⟩ : OrchestratorState).lib :=
  ⟨by decide,
    interactCoupled_nonzero_timeNode_preserves_lib
      ⟨RunType.Standard, "Neutron"⟩ 1 0 ["AA"]
      (fun _ _ _ _ => (true, []))
      (fun _ => (CrossSectionLibrary.mk [], []))
      ⟨LibSlot.sentinel "Nonsense", []⟩ (by decide)⟩

/-- Claim C7: for every prior value of the library slot, `interactCoupled`
with run-type `Snapshots` at time-node 0 resets the library reference to
none before the regeneration decision is evaluated, and when the decision
returns false the library reference is still none after the call. -/
theorem interactCoupled_snapshots_resets_lib (cfg : LatticeConfig)
    (cycle : Nat) (requiredIds : List String)
    (decideRegen : Nat → List String → LibSlot → Bool → Bool × List String)
    (regenerate : List String → CrossSectionLibrary × List (String × Rat))
    (st : OrchestratorState) (h : cfg.runType = RunType.Snapshots)
    (hd : (decideRegen cycle requiredIds (snapshotReset cfg 0 st).lib
            (generationRequested cfg)).1 = false) :
    (snapshotReset cfg 0 st).lib = LibSlot.noLib
    ∧ (interactCoupled cfg 0 cycle requiredIds decideRegen regenerate
        st).lib = LibSlot.noLib := by
  have hsr : (snapshotReset cfg 0 st).lib = LibSlot.noLib := by
    simp [snapshotReset, h]
  rw [hsr] at hd
  refine ⟨hsr, ?_⟩
  simp [interactCoupled, hd, hsr]

/-- Witness for claim C7 with a sentinel prior library value and a decision
engine that always answers false. -/
theorem interactCoupled_snapshots_resets_lib_witness :
    (⟨RunType.Snapshots, ""⟩ : LatticeConfig).runType = RunType.Snapshots
    ∧ ((fun (_ : Nat) (_ : List String) (_ : LibSlot) (_ : Bool) =>
          ((false, []) : Bool × List String)) 0 ["AA"]
        (snapshotReset ⟨RunType.Snapshots, ""⟩ 0
          ⟨LibSlot.sentinel "Nonsense", []⟩).lib
        (generationRequested ⟨RunType.Snapshots, ""⟩)).1 = false
    ∧ ((snapshotReset ⟨RunType.Snapshots, ""⟩ 0
          ⟨LibSlot.sentinel "Nonsense", []⟩).lib = LibSlot.noLib
      ∧ (interactCoupled ⟨RunType.Snapshots, ""⟩ 0 0 ["AA"]
          (fun _ _ _ _ => (false, []))
          (fun _ => (CrossSectionLibrary.mk [], []))
          ⟨LibSlot.sentinel "Nonsense", []⟩).lib = LibSlot.noLib) :=
  ⟨rfl, rfl,
    interactCoupled_snapshots_resets_lib ⟨RunType.Snapshots, ""⟩ 0 ["AA"]
      (fun _ _ _ _ => (false, []))
      (fun _ => (CrossSectionLibrary.mk [], []))
      ⟨LibSlot.sentinel "Nonsense", []⟩ rfl rfl⟩

/-- Claim C8: the per-identifier burnup bookkeeping map starts empty at
interface construction; it is unchanged by any `interactCoupled` call in
which the decision engine returns false (so it remains empty then); and on
a successful regeneration (decision true at time-node 0) it becomes the
prior map with the regenerated identifiers' burnups added or overwritten. -/
theorem oldXsIdsAndBurnup_empty_until_regeneration (cfg : LatticeConfig)
    (timeNode cycle : Nat) (requiredIds : List String)
    (decideRegen : Nat → List String → LibSlot → Bool → Bool × List String)
    (regenerate : List String → CrossSectionLibrary × List (String × Rat))
    (st : OrchestratorState) :
    initialOldXsIdsAndBurnup = []
    ∧ ((decideRegen cycle requiredIds (snapshotReset cfg timeNode st).lib
          (generationRequested cfg)).1 = false →
        (interactCoupled cfg timeNode cycle requiredIds decideRegen
          regenerate st).oldXsIdsAndBurnup = st.oldXsIdsAndBurnup)
    ∧ (timeNode = 0 →
        (decideRegen cycle requiredIds (snapshotReset cfg timeNode st).lib
          (generationRequested cfg)).1 = true →
        (interactCoupled cfg timeNode cycle requiredIds decideRegen
          regenerate st).oldXsIdsAndBurnup
          = updateEntries st.oldXsIdsAndBurnup (regenerate requiredIds).2) := by
  have hsr : (snapshotReset cfg timeNode st).oldXsIdsAndBurnup
      = st.oldXsIdsAndBurnup := by
    unfold snapshotReset
    split <;> rfl
  refine ⟨rfl, ?_, ?_⟩
  · intro hd
    unfold interactCoupled
    split
    · exact hsr
    · simp [hd, hsr]
  · intro ht hd
    subst ht
    simp [interactCoupled, hd, hsr]

/-- Witness for claim C8 with an empty initial map and a decision engine
that always answers false. -/
theorem oldXsIdsAndBurnup_empty_until_regeneration_witness :
    initialOldXsIdsAndBurnup = []
    ∧ (((fun (_ : Nat) (_ : List String) (_ : LibSlot) (_ : Bool) =>
            ((false, []) : Bool × List String)) 0 ["AA"]
          (snapshotReset ⟨RunType.Standard, ""⟩ 0
            ⟨LibSlot.noLib, initialOldXsIdsAndBurnup⟩).lib
          (generationRequested ⟨RunType.Standard, ""⟩)).1 = false →
        (interactCoupled ⟨RunType.Standard, ""⟩ 0 0 ["AA"]
          (fun _ _ _ _ => (false, []))
          (fun _ => (CrossSectionLibrary.mk [], []))
          ⟨LibSlot.noLib, initialOldXsIdsAndBurnup⟩).oldXsIdsAndBurnup
          = (⟨LibSlot.noLib, initialOldXsIdsAndBurnup⟩
              : OrchestratorState).oldXsIdsAndBurnup)
    ∧ ((0 : Nat) = 0 →
        (((fun (_ : Nat) (_ : List String) (_ : LibSlot) (_ : Bool) =>
            ((false, []) : Bool × List String)) 0 ["AA"]
          (snapshotReset ⟨RunType.Standard, ""⟩ 0
            ⟨LibSlot.noLib, initialOldXsIdsAndBurnup⟩).lib
          (generationRequested ⟨RunType.Standard, ""⟩)).1 = true →
        (interactCoupled ⟨RunType.Standard, ""⟩ 0 0 ["AA"]
          (fun _ _ _ _ => (false, []))
          (fun _ => (CrossSectionLibrary.mk [], []))
          ⟨LibSlot.noLib, initialOldXsIdsAndBurnup⟩).oldXsIdsAndBurnup
          = updateEntries
              (⟨LibSlot.noLib, initialOldXsIdsAndBurnup⟩
                : OrchestratorState).oldXsIdsAndBurnup
              ((fun (_ : List String) =>
                  ((CrossSectionLibrary.mk [], [])
                    : CrossSectionLibrary × List (String × Rat))) ["AA"]).2)) :=
  oldXsIdsAndBurnup_empty_until_regeneration ⟨RunType.Standard, ""⟩ 0 0 ["AA"]
    (fun _ _ _ _ => (false, []))
    (fun _ => (CrossSectionLibrary.mk [], []))
    ⟨LibSlot.noLib, initialOldXsIdsAndBurnup⟩

/-- Claim C9: the `runType` option admits exactly the values Standard,
Equilibrium and Snapshots, with default Standard; enumerated values pass
settings validation and any value outside the option set fails with a
configuration error. -/
theorem runType_options_validation (v : String) (h : v ∉ runTypeOptions) :
    runTypeOptions = ["Standard", "Equilibrium", "Snapshots"]
    ∧ runTypeDefault = "Standard"
    ∧ validateRunType runTypeDefault = Except.ok runTypeDefault
    ∧ (∀ w ∈ runTypeOptions, validateRunType w = Except.ok w)
    ∧ (∃ msg, validateRunType v
        = Except.error (SettingsError.configurationError msg)) := by
  refine ⟨rfl, rfl, rfl, ?_, ?_⟩
  · intro w hw
    simp [validateRunType, validateOptionValue, hw]
  · exact ⟨"Option " ++ v ++ " is not in the enumerated option set.",
      by simp [validateRunType, validateOptionValue, h]⟩

/-- Witness for claim C9 at the out-of-set value "Nonsense". -/
theorem runType_options_validation_witness :
    ("Nonsense" ∉ runTypeOptions)
    ∧ (runTypeOptions = ["Standard", "Equilibrium", "Snapshots"]
      ∧ runTypeDefault = "Standard"
      ∧ validateRunType runTypeDefault = Except.ok runTypeDefault
      ∧ (∀ w ∈ runTypeOptions, validateRunType w = Except.ok w)
      ∧ (∃ msg, validateRunType "Nonsense"
          = Except.error (SettingsError.configurationError msg))) :=
  ⟨by decide, runType_options_validation "Nonsense" (by decide)⟩

/-- Claim C10: a `cycles` entry passes `_mutuallyExclusiveCyclesInputs`
exactly when one of the three timing-input groups is present, and in
particular an entry containing both `cumulative days` and `burn steps` is
rejected with an `Invalid` error. -/
theorem mutuallyExclusiveCyclesInputs_exactlyOne :
    (∀ ks n, mutuallyExclusiveCyclesInputs ks n = Except.ok ks
        ↔ exactlyOneTimingGroup ks)
    ∧ (∃ e, mutuallyExclusiveCyclesInputs ["cumulative days", "burn steps"] ""
        = Except.error e) := by
  constructor
  · intro ks n
    by_cases h1 : "cumulative days" ∈ ks <;>
      by_cases h2 : "step days" ∈ ks <;>
        by_cases h3 : "cycle length" ∈ ks <;>
          by_cases h4 : "burn steps" ∈ ks <;>
            simp [mutuallyExclusiveCyclesInputs, exactlyOneTimingGroup,
              h1, h2, h3, h4]
  · exact ⟨SettingsError.invalid cyclesBaseErrMsg, rfl⟩

end Armi
